import Mathlib

/-!
Verification of the resilient command-orchestration core of a Go TUI client
for a project-tracking API.  The development shallowly embeds, from the Go
source:

* the error taxonomy and constructors (internal/errors/types.go),
* the error classifier (`ClassifyError`, `extractRetryAfter`,
  `extractFieldErrors`),
* the retry executor (`Retry`, `RetryWithContext`, `calculateDelay`),
* the relevant message transitions of the Bubble Tea view model
  (`Model.Update` cases for `PartialSuccessMsg`, `ItemSavedMsg`,
  `RepositoriesLoadedMsg`, `ErrorMsg`).

Go machine integers (`int`, `int64`/`time.Duration`) are embedded as `Int`
(durations are nanosecond counts, as in Go); loop counters that are always
non-negative are embedded as `Nat`.  Go `error` values are embedded as
`GoErr`: either a typed `*APIError` or a plain error carrying only its
message string.
-/

/-! ## String helpers mirroring the Go `strings` package -/

/-- Test that `pat` is an initial segment of `s` (character lists). -/
def listStartsWith : List Char → List Char → Bool
  | [], _ => true
  | _ :: _, [] => false
  | p :: ps, c :: cs => p == c && listStartsWith ps cs

/-- Test that `pat` occurs contiguously inside `s` (character lists).
Mirrors Go `strings.Contains(s, pat)`. -/
def listContainsSub (pat : List Char) : List Char → Bool
  | [] => listStartsWith pat []
  | c :: rest => listStartsWith pat (c :: rest) || listContainsSub pat rest

/-- Go `strings.Contains(s, pat)`. -/
def strContainsSub (s pat : String) : Bool :=
  listContainsSub pat.data s.data

/-- Go `strings.ToLower` (the inputs classified here are ASCII, where
`Char.toLower` agrees with Go's Unicode lowering). -/
def strToLower (s : String) : String :=
  String.mk (s.data.map Char.toLower)

/-! ## Error taxonomy (internal/errors/types.go) -/

/-- Go `ErrorType` (constants `ErrorTypeUnknown` … `ErrorTypeConflict`).
There is no `Cancelled` or `PartialSuccess` constant in the source. -/
inductive ErrorType where
  | unknown
  | retryable
  | permission
  | validation
  | rateLimit
  | conflict
deriving Repr, DecidableEq

/-- Go `APIError`.  The Go field `Type` is named `kind` here (`Type` is a
reserved word in Lean); `OriginalErr` keeps only the wrapped error's
message; the Go map `FieldErrors` is an association list in insertion
order; durations are nanosecond `Int`s. -/
structure APIError where
  kind : ErrorType
  Message : String
  OriginalErr : Option String := none
  Retryable : Bool
  RetryAfter : Int := 0
  HTTPStatus : Int := 0
  GraphQLType : String := ""
  FieldErrors : List (String × String) := []
deriving Repr, DecidableEq

/-- Go `RetryableError`. -/
def RetryableError (message : String) (err : Option String) : APIError :=
  { kind := .retryable, Message := message, OriginalErr := err, Retryable := true }

/-- Go `PermissionError`. -/
def PermissionError (message : String) (err : Option String) : APIError :=
  { kind := .permission, Message := message, OriginalErr := err, Retryable := false }

/-- Go `ValidationError`. -/
def ValidationError (message : String) (fieldErrors : List (String × String)) : APIError :=
  { kind := .validation, Message := message, OriginalErr := none, Retryable := false,
    FieldErrors := fieldErrors }

/-- Go `RateLimitError`. -/
def RateLimitError (message : String) (retryAfter : Int) : APIError :=
  { kind := .rateLimit, Message := message, OriginalErr := none, Retryable := true,
    RetryAfter := retryAfter }

/-- Go `ConflictError`. -/
def ConflictError (message : String) (err : Option String) : APIError :=
  { kind := .conflict, Message := message, OriginalErr := err, Retryable := false }

/-- A Go `error` value as the core manipulates it: either a typed
`*APIError` or any other error, of which only the message is observable. -/
inductive GoErr where
  | api (e : APIError)
  | plain (msg : String)
deriving Repr, DecidableEq

/-- Go `IsRetryableError`: the type assertion `err.(*APIError)` succeeds
only for typed errors; otherwise `false`. -/
def IsRetryableError : GoErr → Bool
  | .api e => e.Retryable
  | .plain _ => false

/-- Go `GetRetryAfter`: `0` for errors that are not `*APIError`. -/
def GetRetryAfter : GoErr → Int
  | .api e => e.RetryAfter
  | .plain _ => 0

/-- One second in nanoseconds (Go `time.Second`). -/
def goSecond : Int := 1000000000

/-! ## Classifier (ClassifyError and helpers) -/

/-- Go `extractRetryAfter`: both branches of the source return 60 seconds
(the `Contains(errMsg, "60")` test selects between two identical values). -/
def extractRetryAfter (errMsg : String) : Int :=
  if strContainsSub errMsg "60" then 60 * goSecond
  else 60 * goSecond

/-- Go `extractFieldErrors`; map entries are kept in insertion order. -/
def extractFieldErrors (errMsg : String) : List (String × String) :=
  let l := strToLower errMsg
  (if strContainsSub l "user" && strContainsSub l "not found" then
    [("assignee", "User not found")] else []) ++
  (if strContainsSub l "title" then [("title", "Invalid title")] else [])

/-- Go `ClassifyError`.  A `none` error yields `none` (the Go function
returns a nil pointer); otherwise the ordered rule chain of the source is
applied.  In the validation rule, Go's `&&` binds tighter than `||`. -/
def ClassifyError (err : Option String) (httpStatus : Int) : Option APIError :=
  match err with
  | none => none
  | some errMsg =>
    let errLower := strToLower errMsg
    if httpStatus == 429 || strContainsSub errLower "rate limit" ||
       strContainsSub errLower "rate_limited" then
      some (RateLimitError "GitHub API rate limit exceeded" (extractRetryAfter errMsg))
    else if httpStatus == 403 || httpStatus == 401 ||
       strContainsSub errLower "not authorized" ||
       strContainsSub errLower "permission denied" ||
       strContainsSub errLower "forbidden" ||
       strContainsSub errLower "does not have access" then
      some (PermissionError "Permission denied" (some errMsg))
    else if httpStatus == 400 || strContainsSub errLower "invalid" ||
       strContainsSub errLower "validation" ||
       (strContainsSub errLower "not found" && strContainsSub errLower "user") then
      some (ValidationError errMsg (extractFieldErrors errMsg))
    else if httpStatus == 409 || strContainsSub errLower "conflict" ||
       strContainsSub errLower "concurrent" then
      some (ConflictError "Resource conflict" (some errMsg))
    else if strContainsSub errLower "timeout" || strContainsSub errLower "connection" ||
       strContainsSub errLower "network" || strContainsSub errLower "temporary" ||
       httpStatus >= 500 then
      some (RetryableError errMsg (some errMsg))
    else
      some { kind := .unknown, Message := errMsg, OriginalErr := some errMsg,
             Retryable := false, HTTPStatus := httpStatus }

/-- The classifier's rule table as the specification states it: an ordered
list of (condition, kind) pairs, first match winning, default `unknown`.
This is the spec-side description against which the source classifier is
compared. -/
def specRules (errLower : String) (httpStatus : Int) : List (Bool × ErrorType) :=
  [ (httpStatus == 429 || strContainsSub errLower "rate limit" ||
       strContainsSub errLower "rate_limited", .rateLimit),
    (httpStatus == 403 || httpStatus == 401 ||
       strContainsSub errLower "not authorized" ||
       strContainsSub errLower "permission denied" ||
       strContainsSub errLower "forbidden" ||
       strContainsSub errLower "does not have access", .permission),
    (httpStatus == 400 || strContainsSub errLower "invalid" ||
       strContainsSub errLower "validation" ||
       (strContainsSub errLower "not found" && strContainsSub errLower "user"), .validation),
    (httpStatus == 409 || strContainsSub errLower "conflict" ||
       strContainsSub errLower "concurrent", .conflict),
    (strContainsSub errLower "timeout" || strContainsSub errLower "connection" ||
       strContainsSub errLower "network" || strContainsSub errLower "temporary" ||
       httpStatus >= 500, .retryable) ]

/-- Kind of the earliest matching rule (spec-side first-match semantics). -/
def firstMatchKind (msg : String) (httpStatus : Int) : ErrorType :=
  match (specRules (strToLower msg) httpStatus).find? (fun p => p.1) with
  | some p => p.2
  | none => .unknown

/-! ## Retry executor (Retry, RetryWithContext, calculateDelay)

The executor is embedded over an execution oracle `fn : Nat → Option GoErr`
giving the result of the k-th invocation of the wrapped operation
(1-indexed; `none` is success), and a jitter oracle `rnd : Nat → Int`
giving the random draw `rand.Int63n(delay/10)` that attempt k would use
when jitter is enabled (ignored when `Jitter = false`, as in every claim
below).  Real time is abstracted away: a completed `time.Sleep`/
`time.After` wait is recorded in a trace of waited durations. -/

/-- Go `RetryConfig`.  `MaxAttempts` is a Go `int`; the loop runs for
attempts `1..MaxAttempts`, so a non-positive value behaves as `0` and the
field is embedded as `Nat`.  The `OnRetry` callback only performs output
and is omitted. -/
structure RetryConfig where
  MaxAttempts : Nat
  BaseDelay : Int
  MaxDelay : Int
  Jitter : Bool
deriving Repr, DecidableEq

/-- Go `calculateDelay`.  `math.Pow(2, float64(attempt-1))` is exact for
the attempt counts any claim touches (it is a float only in Go); `rnd` is
the jitter draw described above. -/
def calculateDelay (attempt : Nat) (config : RetryConfig) (err : GoErr) (rnd : Int) : Int :=
  if GetRetryAfter err > 0 then GetRetryAfter err
  else
    let delay := config.BaseDelay * 2 ^ (attempt - 1)
    let delay := if delay > config.MaxDelay then config.MaxDelay else delay
    if config.Jitter then delay + rnd else delay

/-- Observable outcome of one executor run: how many times the wrapped
operation was invoked, which delay waits ran to completion, and the
returned Go error (`none` is success). -/
structure RetryTrace where
  calls : Nat
  delays : List Int
  result : Option GoErr
deriving Repr, DecidableEq

/-- Loop body of Go `Retry`, driven by the fuel `remaining`
(`= MaxAttempts - attempt + 1` at every call from `Retry`); `lastErr`
mirrors the Go variable of the same name, returned when the loop falls
through (only possible with zero fuel). -/
def retryGo (fn : Nat → Option GoErr) (rnd : Nat → Int) (config : RetryConfig) :
    Nat → Nat → Option GoErr → RetryTrace
  | _, 0, lastErr => ⟨0, [], lastErr⟩
  | attempt, r + 1, _ =>
    match fn attempt with
    | none => ⟨1, [], none⟩
    | some err =>
      if !IsRetryableError err then ⟨1, [], some err⟩
      else if attempt == config.MaxAttempts then ⟨1, [], some err⟩
      else
        let delay := calculateDelay attempt config err (rnd attempt)
        let rest := retryGo fn rnd config (attempt + 1) r (some err)
        ⟨rest.calls + 1, delay :: rest.delays, rest.result⟩

/-- Go `Retry` (the `config == nil` default-substitution is performed by
the caller and not modelled). -/
def Retry (fn : Nat → Option GoErr) (config : RetryConfig) (rnd : Nat → Int) : RetryTrace :=
  retryGo fn rnd config 1 config.MaxAttempts none

/-- The error `fmt.Errorf("operation cancelled")` that `RetryWithContext`
returns on cancellation — the code's realization of the spec's
`Cancelled` Outcome.  It is a plain error, not an `APIError` (the
`ErrorType` constants have no `Cancelled` member). -/
def cancelledErr : GoErr := .plain "operation cancelled"

/-- Loop body of Go `RetryWithContext`.  `cancelBefore k` tells whether
the cancel channel is ready at the non-blocking check preceding invocation
k; `cancelDuring k` tells whether the `select` of the wait after
invocation k is won by the cancel channel (an interrupted wait is not
recorded in `delays`). -/
def retryCtxGo (fn : Nat → Option GoErr) (rnd : Nat → Int) (config : RetryConfig)
    (cancelBefore cancelDuring : Nat → Bool) :
    Nat → Nat → Option GoErr → RetryTrace
  | _, 0, lastErr => ⟨0, [], lastErr⟩
  | attempt, r + 1, _ =>
    if cancelBefore attempt then ⟨0, [], some cancelledErr⟩
    else
      match fn attempt with
      | none => ⟨1, [], none⟩
      | some err =>
        if !IsRetryableError err then ⟨1, [], some err⟩
        else if attempt == config.MaxAttempts then ⟨1, [], some err⟩
        else
          let delay := calculateDelay attempt config err (rnd attempt)
          if cancelDuring attempt then ⟨1, [], some cancelledErr⟩
          else
            let rest := retryCtxGo fn rnd config cancelBefore cancelDuring
              (attempt + 1) r (some err)
            ⟨rest.calls + 1, delay :: rest.delays, rest.result⟩

/-- Go `RetryWithContext`. -/
def RetryWithContext (fn : Nat → Option GoErr) (config : RetryConfig) (rnd : Nat → Int)
    (cancelBefore cancelDuring : Nat → Bool) : RetryTrace :=
  retryCtxGo fn rnd config cancelBefore cancelDuring 1 config.MaxAttempts none

/-! ## User-friendly messages (APIError.GetUserFriendlyMessage) -/

/-- Go `d.Round(time.Second)` for a non-negative duration `d` (the only
call site guards `d > 0`): round to the nearest multiple of a second,
half away from zero. -/
def goRoundSecond (d : Int) : Int :=
  let r := d % goSecond
  if r + r < goSecond then d - r else d - r + goSecond

/-- Go `fmt.Sprintf("%v", d)` for a non-negative whole-second duration
(every duration printed by the code has been rounded with
`Round(time.Second)` first, so this covers all reachable inputs). -/
def goDurationString (d : Int) : String :=
  if d == 0 then "0s"
  else
    let s := d / goSecond
    let hrs := s / 3600
    let mins := (s % 3600) / 60
    let secs := s % 60
    if hrs > 0 then toString hrs ++ "h" ++ toString mins ++ "m" ++ toString secs ++ "s"
    else if mins > 0 then toString mins ++ "m" ++ toString secs ++ "s"
    else toString secs ++ "s"

/-- Go `APIError.GetUserFriendlyMessage`.  Field errors are joined in list
(insertion) order, standing in for Go's unordered map iteration. -/
def GetUserFriendlyMessage (e : APIError) : String :=
  match e.kind with
  | .rateLimit =>
    if e.RetryAfter > 0 then
      "GitHub rate limit reached. Please wait " ++
        goDurationString (goRoundSecond e.RetryAfter) ++ " before trying again."
    else "GitHub rate limit reached. Please wait a moment before trying again."
  | .permission =>
    if strContainsSub (strToLower e.Message) "token" then
      "Permission denied. Your GitHub token may not have the required scopes. Check your token permissions."
    else "Permission denied. You may not have access to this resource."
  | .validation =>
    if e.FieldErrors.length > 0 then
      "Validation failed: " ++
        String.intercalate "; " (e.FieldErrors.map (fun p => p.1 ++ ": " ++ p.2))
    else e.Message
  | .retryable => "Network error: " ++ e.Message ++ ". This will be retried automatically."
  | .conflict => "Conflict: " ++ e.Message ++ ". The item may have been modified by someone else."
  | .unknown => e.Message

/-! ## View state machine (internal/ui/model.go)

The embedding covers the `Model` state aggregate and the `Model.Update`
cases the claims are about: `ItemSavedMsg`, `PartialSuccessMsg`,
`RepositoriesLoadedMsg` and `ErrorMsg`.  Domain records (`models.Project`,
`models.Repository`, `models.ProjectItem`) are embedded with the fields
the core reads; widget sub-models whose contents the modelled transitions
never inspect are opaque `Nat` handles, as is the `*api.Client`. -/

/-- The Go `models.Project`, restricted to the fields the modelled
transitions read (`ID`; `Name` kept as payload identity). -/
structure Project where
  id : String
  name : String
deriving Repr, DecidableEq

/-- The Go `models.Repository`, restricted to the fields the modelled
transitions read (`ID`, `Name`). -/
structure Repository where
  id : String
  name : String
deriving Repr, DecidableEq

/-- The Go `models.ProjectItem`, an opaque payload for the modelled
transitions. -/
structure Item where
  id : String
deriving Repr, DecidableEq

/-- Go `config.Config`: application configuration holding
`ProjectRepositories`, a map from project ID to default repository ID.
The Go map is embedded as an association list with at most one entry per
key (a Go map cannot hold duplicate keys).  `Load` and `Save` only
perform disk I/O: `Save` leaves the mapping unchanged and is therefore
not modelled beyond that. -/
structure Config where
  ProjectRepositories : List (String × String)
deriving Repr, DecidableEq

/-- Go `Config.GetDefaultRepository`: the map lookup
`c.ProjectRepositories[projectID]`; `some` plays the role of the Go `ok`
boolean. -/
def getDefaultRepository (c : Config) (projectID : String) : Option String :=
  (c.ProjectRepositories.find? (fun p => p.1 == projectID)).map (fun p => p.2)

/-- Go `Config.ClearDefaultRepository`:
`delete(c.ProjectRepositories, projectID)` (on the duplicate-free
association list, dropping every entry carrying the key). -/
def clearDefaultRepository (c : Config) (projectID : String) : Config :=
  ⟨c.ProjectRepositories.filter (fun p => p.1 != projectID)⟩

/-- The Go `ItemEditorModel`, restricted to the `project` field read by
the modelled transitions; the remaining widget state is an opaque handle. -/
structure ItemEditorModel where
  project : Project
  rest : Nat
deriving Repr, DecidableEq

/-- The Go `RepositorySelectorModel` (the embedded `textinput` widget, an
external collaborator, is omitted). -/
structure RepositorySelectorModel where
  repos : List Repository
  filteredRepos : List Repository
  selectedIndex : Int
  project : Project
  item : Item
  width : Int
  height : Int
  saveAsDefault : Bool
deriving Repr, DecidableEq

/-- Go `NewRepositorySelectorModel`. -/
def NewRepositorySelectorModel (repos : List Repository) (project : Project)
    (item : Item) : RepositorySelectorModel :=
  { repos := repos, filteredRepos := repos, selectedIndex := 0, project := project,
    item := item, width := 0, height := 0, saveAsDefault := false }

/-- Effect of `RepositorySelectorModel.Update(tea.WindowSizeMsg)` on the
modelled fields: record the new size. -/
def repositorySelectorSetSize (s : RepositorySelectorModel) (w h : Int) :
    RepositorySelectorModel :=
  { s with width := w, height := h }

/-- The `view` enumeration of model.go. -/
inductive View where
  | loading
  | ownerSelector
  | projectList
  | projectDetail
  | itemDetail
  | itemEditor
  | projectCreator
  | repositorySelector
  | help
deriving Repr, DecidableEq

/-- The Go `Model` struct, field for field.  `apiClient` and the widget
sub-models not inspected by the modelled transitions are opaque `Nat`
handles; `config` is `none` when the Go pointer is nil. -/
structure Model where
  currentView : View
  apiClient : Nat
  config : Option Config
  username : String
  orgs : List String
  currentOwner : String
  currentIsUser : Bool
  ownerSelector : Nat
  projectList : Nat
  projectDetail : Nat
  itemDetail : Nat
  itemEditor : ItemEditorModel
  projectCreator : Nat
  repositorySelector : RepositorySelectorModel
  width : Int
  height : Int
  err : Option GoErr
  loading : Bool
  message : String
  debugMode : Bool
deriving Repr, DecidableEq

/-- The messages whose `Model.Update` cases are modelled. -/
inductive Msg where
  | itemSaved
  | partialSuccess (message : String) (warningError : GoErr)
  | repositoriesLoaded (project : Project) (item : Item) (repositories : List Repository)
  | errorMsg (e : GoErr)
deriving Repr, DecidableEq

/-- The `tea.Cmd` values the modelled transitions return, symbolically. -/
inductive Cmd where
  | none
  | loadProjectItems (client : Nat) (project : Project)
  | convertDraft (client : Nat) (project : Project) (item : Item)
      (repository : Repository) (saveAsDefault : Bool)
  | selectorInit
deriving Repr, DecidableEq

/-- The tail of the `RepositoriesLoadedMsg` case, after the
default-repository check: auto-select a sole repository, otherwise show
the selector (Go sets the selector's size fields and then feeds it a
`tea.WindowSizeMsg` with the same dimensions). -/
def repositoriesLoadedRest (m : Model) (project : Project) (item : Item)
    (repos : List Repository) : Model × Cmd :=
  match repos with
  | [r] =>
    ({ m with
        loading := true,
        message := "Converting to issue in " ++ r.name ++ "..." },
      Cmd.convertDraft m.apiClient project item r false)
  | _ =>
    let sel := repositorySelectorSetSize (NewRepositorySelectorModel repos project item)
      m.width m.height
    ({ m with
        repositorySelector := repositorySelectorSetSize sel m.width m.height,
        currentView := .repositorySelector, loading := false },
      Cmd.selectorInit)

/-- The modelled cases of `Model.Update`. -/
def update (m : Model) (msg : Msg) : Model × Cmd :=
  match msg with
  | .itemSaved =>
    ({ m with loading := false }, Cmd.loadProjectItems m.apiClient m.itemEditor.project)
  | .partialSuccess wmsg _ =>
    ({ m with loading := false, err := none, message := "⚠️ " ++ wmsg },
      Cmd.loadProjectItems m.apiClient m.itemEditor.project)
  | .repositoriesLoaded project item repos =>
    match m.config with
    | some cfg =>
      match getDefaultRepository cfg project.id with
      | some defaultRepoID =>
        match repos.find? (fun r => r.id == defaultRepoID) with
        | some repo =>
          ({ m with
              loading := true,
              message := "Converting to issue in " ++ repo.name ++ " (default)..." },
            Cmd.convertDraft m.apiClient project item repo false)
        | none =>
          repositoriesLoadedRest
            { m with config := some (clearDefaultRepository cfg project.id) }
            project item repos
      | none => repositoriesLoadedRest m project item repos
    | none => repositoriesLoadedRest m project item repos
  | .errorMsg e =>
    match e with
    | .api apiErr =>
      let friendly := GetUserFriendlyMessage apiErr
      let icon : String :=
        match apiErr.kind with
        | .rateLimit => "⏱️ "
        | .permission => "🔒 "
        | .validation => "⚠️ "
        | .retryable => "🔄 "
        | _ => "❌ "
      ({ m with
          err := some (GoErr.plain friendly), message := icon ++ friendly,
          loading := false }, Cmd.none)
    | .plain _ =>
      ({ m with err := some e, message := "", loading := false }, Cmd.none)

/-! ## Shared proof helpers -/

/-- Behaviour of the `Retry` loop body when every invocation fails with a
retryable error: the remaining fuel is consumed one attempt at a time and
the final attempt's error is returned. -/
theorem retryGo_all_fail (fn : Nat → Option GoErr) (ek : Nat → GoErr)
    (rnd : Nat → Int) (config : RetryConfig)
    (hf : ∀ k, fn k = some (ek k)) (hr : ∀ k, IsRetryableError (ek k) = true) :
    ∀ (r a : Nat) (lastErr : Option GoErr), a + r = config.MaxAttempts + 1 → 1 ≤ r →
      (retryGo fn rnd config a r lastErr).calls = r ∧
      (retryGo fn rnd config a r lastErr).result = some (ek config.MaxAttempts) := by
  intro r
  induction r with
  | zero => intro a lastErr _ h; exact absurd h (by omega)
  | succ r ih =>
    intro a lastErr hsum _
    rcases Nat.eq_zero_or_pos r with hr0 | hrpos
    · subst hr0
      have ha : a = config.MaxAttempts := by omega
      subst ha
      simp [retryGo, hf, hr]
    · have hbeq : (a == config.MaxAttempts) = false := by
        simp only [beq_eq_false_iff_ne, ne_eq]
        omega
      obtain ⟨ih1, ih2⟩ := ih (a + 1) (some (ek a)) (by omega) hrpos
      simp [retryGo, hf a, hr a, hbeq, ih1, ih2]

/-- A cancel signal that never fires. -/
def neverCancel : Nat → Bool := fun _ => false

/-- With a cancel signal that never fires, `RetryWithContext` and `Retry`
have the same loop behaviour. -/
theorem retryCtxGo_no_cancel (fn : Nat → Option GoErr) (rnd : Nat → Int)
    (config : RetryConfig) :
    ∀ (r a : Nat) (lastErr : Option GoErr),
      retryCtxGo fn rnd config neverCancel neverCancel a r lastErr
        = retryGo fn rnd config a r lastErr := by
  intro r
  induction r with
  | zero => intro a lastErr; rfl
  | succ r ih =>
    intro a lastErr
    simp only [retryCtxGo, retryGo, neverCancel]
    cases hfa : fn a <;> simp [hfa, ih]

/-- Behaviour of the `RetryWithContext` loop body when the cancel channel
fires during the wait following attempt `k`: the loop stops with the
cancellation error after exactly `k - a + 1` further invocations. -/
theorem retryCtxGo_cancelled (fn : Nat → Option GoErr) (rnd : Nat → Int)
    (config : RetryConfig) (cb cd : Nat → Bool) (k : Nat)
    (hkM : k < config.MaxAttempts)
    (hcb : ∀ j, j ≤ k → cb j = false)
    (hcd : ∀ j, j < k → cd j = false) (hcdk : cd k = true)
    (hf : ∀ j, j ≤ k → ∃ e, fn j = some e ∧ IsRetryableError e = true) :
    ∀ (r a : Nat) (lastErr : Option GoErr), a + r = config.MaxAttempts + 1 → 1 ≤ a → a ≤ k →
      (retryCtxGo fn rnd config cb cd a r lastErr).calls = k - a + 1 ∧
      (retryCtxGo fn rnd config cb cd a r lastErr).result = some cancelledErr := by
  intro r
  induction r with
  | zero => intro a lastErr hsum _ hak; exact absurd hsum (by omega)
  | succ r ih =>
    intro a lastErr hsum ha1 hak
    have hcba : cb a = false := hcb a hak
    obtain ⟨e, hfa, hre⟩ := hf a hak
    have hbeq : (a == config.MaxAttempts) = false := by
      simp only [beq_eq_false_iff_ne, ne_eq]
      omega
    rcases eq_or_lt_of_le hak with hak' | hlt
    · subst hak'
      simp [retryCtxGo, hcba, hfa, hre, hbeq, hcdk]
    · have hcda : cd a = false := hcd a hlt
      obtain ⟨ih1, ih2⟩ := ih (a + 1) (some e) (by omega) (by omega) (by omega)
      simp [retryCtxGo, hcba, hfa, hre, hbeq, hcda, ih1, ih2]
      omega

/-! ## Concrete fixtures used by the witnesses -/

/-- A 3-attempt policy (1s base, 16s cap, no jitter). -/
def cfgW : RetryConfig := ⟨3, goSecond, 16 * goSecond, false⟩

/-- A 5-attempt policy (1s base, 16s cap, no jitter). -/
def cfgW5 : RetryConfig := ⟨5, goSecond, 16 * goSecond, false⟩

/-- A jitter oracle that always draws zero. -/
def rndZero : Nat → Int := fun _ => 0

/-- The transient (retryable) error the k-th invocation of
`alwaysTransient` fails with. -/
def transientAt (k : Nat) : GoErr :=
  GoErr.api (RetryableError ("timeout " ++ toString k) none)

/-- An operation that fails on every invocation with a retryable error. -/
def alwaysTransient : Nat → Option GoErr := fun k => some (transientAt k)

/-- A conflict error (classified non-retryable). -/
def conflictErr : GoErr := GoErr.api (ConflictError "Resource conflict" none)

/-- An operation that fails on every invocation with a conflict error. -/
def alwaysConflict : Nat → Option GoErr := fun _ => some conflictErr

/-- A plain (untyped) error, for which `GetRetryAfter` is zero. -/
def timeoutPlain : GoErr := GoErr.plain "timeout"

/-- A cancel signal that fires during the wait after attempt 2. -/
def cancelAtTwo : Nat → Bool := fun j => j == 2

/-! ## Claim theorems -/

/-- C1: an operation that fails on every invocation with an error
classified as retryable, run under a policy with `MaxAttempts = N ≥ 1`,
is invoked exactly N times (by both `Retry` and `RetryWithContext` with a
quiet cancel signal), and the executor's returned error is the Nth (last)
failure's classification. -/
theorem retry_exhausts_attempt_budget (fn : Nat → Option GoErr) (ek : Nat → GoErr)
    (config : RetryConfig) (rnd : Nat → Int)
    (hf : ∀ k, fn k = some (ek k)) (hr : ∀ k, IsRetryableError (ek k) = true)
    (hN : 1 ≤ config.MaxAttempts) :
    (Retry fn config rnd).calls = config.MaxAttempts ∧
    (Retry fn config rnd).result = some (ek config.MaxAttempts) ∧
    (RetryWithContext fn config rnd neverCancel neverCancel).calls = config.MaxAttempts ∧
    (RetryWithContext fn config rnd neverCancel neverCancel).result
      = some (ek config.MaxAttempts) := by
  obtain ⟨h1, h2⟩ := retryGo_all_fail fn ek rnd config hf hr config.MaxAttempts 1 none
    (by omega) hN
  refine ⟨h1, h2, ?_, ?_⟩ <;>
    simp [RetryWithContext, retryCtxGo_no_cancel, Retry, h1, h2]

/-- Witness for C1: a permanently transient-failing operation under
`MaxAttempts = 3` runs exactly 3 times and returns the third failure. -/
theorem retry_exhausts_attempt_budget_witness :
    1 ≤ cfgW.MaxAttempts ∧
    (Retry alwaysTransient cfgW rndZero).calls = 3 ∧
    (Retry alwaysTransient cfgW rndZero).result = some (transientAt 3) ∧
    (RetryWithContext alwaysTransient cfgW rndZero neverCancel neverCancel).calls = 3 ∧
    (RetryWithContext alwaysTransient cfgW rndZero neverCancel neverCancel).result
      = some (transientAt 3) :=
  ⟨by decide,
   retry_exhausts_attempt_budget alwaysTransient transientAt cfgW rndZero
     (fun _ => rfl) (fun _ => rfl) (by decide)⟩

/-- C2: when the first invocation fails with a non-retryable error,
`Retry` makes exactly one call and returns that failure at once, with no
delay wait, whatever `MaxAttempts ≥ 1` is. -/
theorem retry_nonretryable_single_attempt (fn : Nat → Option GoErr) (e : GoErr)
    (config : RetryConfig) (rnd : Nat → Int)
    (hN : 1 ≤ config.MaxAttempts) (hf : fn 1 = some e)
    (hnr : IsRetryableError e = false) :
    Retry fn config rnd = ⟨1, [], some e⟩ := by
  obtain ⟨r, hrr⟩ : ∃ r, config.MaxAttempts = r + 1 := ⟨config.MaxAttempts - 1, by omega⟩
  rw [Retry, hrr]
  simp [retryGo, hf, hnr]

/-- Witness for C2: a conflict failure under `MaxAttempts = 3` is invoked
once, waits for no delay, and is surfaced directly. -/
theorem retry_nonretryable_single_attempt_witness :
    1 ≤ cfgW.MaxAttempts ∧ alwaysConflict 1 = some conflictErr ∧
    IsRetryableError conflictErr = false ∧
    Retry alwaysConflict cfgW rndZero = ⟨1, [], some conflictErr⟩ :=
  ⟨by decide, rfl, rfl,
   retry_nonretryable_single_attempt alwaysConflict conflictErr cfgW rndZero
     (by decide) rfl rfl⟩

/-- C3: with `BaseDelay = 1s`, `MaxDelay = 16s`, no jitter and a failure
carrying no retry-after value, the delays computed before the retries
following attempts 1..6 are 1s, 2s, 4s, 8s, 16s, 16s. -/
theorem retry_delay_sequence_capped (config : RetryConfig) (err : GoErr) (rnd : Int)
    (hb : config.BaseDelay = goSecond) (hm : config.MaxDelay = 16 * goSecond)
    (hj : config.Jitter = false) (hra : GetRetryAfter err = 0) :
    calculateDelay 1 config err rnd = 1 * goSecond ∧
    calculateDelay 2 config err rnd = 2 * goSecond ∧
    calculateDelay 3 config err rnd = 4 * goSecond ∧
    calculateDelay 4 config err rnd = 8 * goSecond ∧
    calculateDelay 5 config err rnd = 16 * goSecond ∧
    calculateDelay 6 config err rnd = 16 * goSecond := by
  simp [calculateDelay, hra, hb, hm, hj, goSecond]

/-- Witness for C3: the delay sequence evaluated on the concrete
no-jitter policy and a plain timeout error. -/
theorem retry_delay_sequence_capped_witness :
    cfgW.BaseDelay = goSecond ∧ cfgW.MaxDelay = 16 * goSecond ∧ cfgW.Jitter = false ∧
    GetRetryAfter timeoutPlain = 0 ∧
    (calculateDelay 1 cfgW timeoutPlain 0 = 1 * goSecond ∧
     calculateDelay 2 cfgW timeoutPlain 0 = 2 * goSecond ∧
     calculateDelay 3 cfgW timeoutPlain 0 = 4 * goSecond ∧
     calculateDelay 4 cfgW timeoutPlain 0 = 8 * goSecond ∧
     calculateDelay 5 cfgW timeoutPlain 0 = 16 * goSecond ∧
     calculateDelay 6 cfgW timeoutPlain 0 = 16 * goSecond) :=
  ⟨rfl, rfl, rfl, rfl,
   retry_delay_sequence_capped cfgW timeoutPlain 0 rfl rfl rfl rfl⟩

/-- C4: if the cancel signal fires during the delay wait following
attempt k (each earlier attempt having failed retryably and not been
cancelled), `RetryWithContext` returns the cancellation outcome
`cancelledErr` immediately and the wrapped operation is not invoked
again: exactly k invocations happen. -/
theorem retry_cancelled_during_wait (fn : Nat → Option GoErr) (config : RetryConfig)
    (rnd : Nat → Int) (cb cd : Nat → Bool) (k : Nat)
    (hk1 : 1 ≤ k) (hkM : k < config.MaxAttempts)
    (hcb : ∀ j, j ≤ k → cb j = false)
    (hcd : ∀ j, j < k → cd j = false) (hcdk : cd k = true)
    (hf : ∀ j, j ≤ k → ∃ e, fn j = some e ∧ IsRetryableError e = true) :
    (RetryWithContext fn config rnd cb cd).result = some cancelledErr ∧
    (RetryWithContext fn config rnd cb cd).calls = k := by
  obtain ⟨h1, h2⟩ := retryCtxGo_cancelled fn rnd config cb cd k hkM hcb hcd hcdk hf
    config.MaxAttempts 1 none (by omega) (by omega) hk1
  refine ⟨h2, ?_⟩
  rw [RetryWithContext, h1]
  omega

/-- Witness for C4: cancelling during the wait after attempt 2 of a
5-attempt run yields the cancellation error after exactly 2 invocations. -/
theorem retry_cancelled_during_wait_witness :
    1 ≤ (2 : Nat) ∧ 2 < cfgW5.MaxAttempts ∧ cancelAtTwo 2 = true ∧
    (RetryWithContext alwaysTransient cfgW5 rndZero neverCancel cancelAtTwo).result
      = some cancelledErr ∧
    (RetryWithContext alwaysTransient cfgW5 rndZero neverCancel cancelAtTwo).calls = 2 :=
  ⟨by decide, by decide, rfl,
   retry_cancelled_during_wait alwaysTransient cfgW5 rndZero neverCancel cancelAtTwo 2
     (by decide) (by decide) (fun _ _ => rfl)
     (by
       intro j hj
       simp only [cancelAtTwo, beq_eq_false_iff_ne, ne_eq]
       omega)
     rfl (fun j _ => ⟨transientAt j, rfl, rfl⟩)⟩

/-- C5: classification applies its rules in the fixed order RateLimit,
Permission, Validation, Conflict, Transient, Unknown with first match
winning — for every message and status, the classifier's kind equals the
kind of the earliest matching rule of `specRules` — and in particular
`classify("403 Forbidden: does not have access", 403)` is a Permission
outcome with `Retryable = false`. -/
theorem classifier_rule_order_first_match_wins :
    (∀ (msg : String) (st : Int),
      (ClassifyError (some msg) st).map APIError.kind = some (firstMatchKind msg st)) ∧
    ClassifyError (some "403 Forbidden: does not have access") 403 =
      some (PermissionError "Permission denied"
        (some "403 Forbidden: does not have access")) ∧
    (PermissionError "Permission denied"
      (some "403 Forbidden: does not have access")).kind = ErrorType.permission ∧
    (PermissionError "Permission denied"
      (some "403 Forbidden: does not have access")).Retryable = false := by
  refine ⟨?_, rfl, rfl, rfl⟩
  intro msg st
  cases h1 : (st == 429 || strContainsSub (strToLower msg) "rate limit" ||
      strContainsSub (strToLower msg) "rate_limited") <;>
  cases h2 : (st == 403 || st == 401 || strContainsSub (strToLower msg) "not authorized" ||
      strContainsSub (strToLower msg) "permission denied" ||
      strContainsSub (strToLower msg) "forbidden" ||
      strContainsSub (strToLower msg) "does not have access") <;>
  cases h3 : (st == 400 || strContainsSub (strToLower msg) "invalid" ||
      strContainsSub (strToLower msg) "validation" ||
      (strContainsSub (strToLower msg) "not found" && strContainsSub (strToLower msg) "user")) <;>
  cases h4 : (st == 409 || strContainsSub (strToLower msg) "conflict" ||
      strContainsSub (strToLower msg) "concurrent") <;>
  cases h5 : (strContainsSub (strToLower msg) "timeout" ||
      strContainsSub (strToLower msg) "connection" ||
      strContainsSub (strToLower msg) "network" ||
      strContainsSub (strToLower msg) "temporary" || decide (st >= 500)) <;>
  simp [ClassifyError, firstMatchKind, specRules, List.find?, h1, h2, h3, h4, h5,
    RateLimitError, PermissionError, ValidationError, ConflictError, RetryableError]

/-- C6: every failure matching the rate-limit rule (status 429, or a
message containing "rate limit" or "rate_limited") classifies to a
RateLimit outcome with `Retryable = true` whose retry-after comes from
`extractRetryAfter`, and `extractRetryAfter` yields the fixed 60-second
value on every message — in particular on "rate_limited". -/
theorem classifier_rate_limit_default_retry_after (msg : String) (st : Int)
    (h : (st == 429 || strContainsSub (strToLower msg) "rate limit" ||
          strContainsSub (strToLower msg) "rate_limited") = true) :
    ClassifyError (some msg) st =
      some (RateLimitError "GitHub API rate limit exceeded" (extractRetryAfter msg)) ∧
    (RateLimitError "GitHub API rate limit exceeded" (extractRetryAfter msg)).kind
      = ErrorType.rateLimit ∧
    (RateLimitError "GitHub API rate limit exceeded" (extractRetryAfter msg)).Retryable
      = true ∧
    extractRetryAfter msg = 60 * goSecond := by
  refine ⟨?_, rfl, rfl, ?_⟩
  · simp only [ClassifyError]
    rw [if_pos h]
  · simp [extractRetryAfter]

/-- Witness for C6: `classify("rate_limited", 429)` is a retryable
RateLimit outcome with the default 60-second retry-after. -/
theorem classifier_rate_limit_default_retry_after_witness :
    ((429 : Int) == 429 || strContainsSub (strToLower "rate_limited") "rate limit" ||
      strContainsSub (strToLower "rate_limited") "rate_limited") = true ∧
    (ClassifyError (some "rate_limited") 429 =
      some (RateLimitError "GitHub API rate limit exceeded"
        (extractRetryAfter "rate_limited")) ∧
     (RateLimitError "GitHub API rate limit exceeded"
        (extractRetryAfter "rate_limited")).kind = ErrorType.rateLimit ∧
     (RateLimitError "GitHub API rate limit exceeded"
        (extractRetryAfter "rate_limited")).Retryable = true ∧
     extractRetryAfter "rate_limited" = 60 * goSecond) :=
  ⟨rfl, classifier_rate_limit_default_retry_after "rate_limited" 429 rfl⟩

/-- C10: every outcome the classifier produces is retryable exactly when
its kind is RateLimit or Transient (`retryable`), and the error
constructors fix the same pairing. -/
theorem classifier_retryable_iff_transient_or_rate_limit :
    (∀ (msg : String) (st : Int),
      (ClassifyError (some msg) st).all
        (fun e => e.Retryable ==
          (e.kind == ErrorType.rateLimit || e.kind == ErrorType.retryable)) = true) ∧
    (∀ s o, (RetryableError s o).Retryable = true) ∧
    (∀ s o, (PermissionError s o).Retryable = false) ∧
    (∀ s fe, (ValidationError s fe).Retryable = false) ∧
    (∀ s ra, (RateLimitError s ra).Retryable = true) ∧
    (∀ s o, (ConflictError s o).Retryable = false) := by
  refine ⟨?_, fun _ _ => rfl, fun _ _ => rfl, fun _ _ => rfl, fun _ _ => rfl,
    fun _ _ => rfl⟩
  intro msg st
  simp only [ClassifyError]
  split_ifs <;> rfl

/-- C7: on a `PartialSuccessMsg` the state machine clears the loading
flag and the error value, surfaces the failure as the warning-prefixed
overlay message, and issues exactly the project-items reload that a full
success (`ItemSavedMsg`) issues. -/
theorem partial_success_warns_and_refreshes (m : Model) (wmsg : String) (werr : GoErr) :
    update m (.partialSuccess wmsg werr) =
      ({ m with loading := false, err := none, message := "⚠️ " ++ wmsg },
        Cmd.loadProjectItems m.apiClient m.itemEditor.project) ∧
    (update m (.partialSuccess wmsg werr)).2 = (update m .itemSaved).2 :=
  ⟨rfl, rfl⟩

/-- C9: on an `ErrorMsg`, in every state, only the error overlay fields
(`err`, `message`, `loading`) change: the active view and every other
field of the state aggregate are untouched, and no command is issued. -/
theorem error_message_preserves_state (m : Model) (e : GoErr) :
    (update m (.errorMsg e)).1.currentView = m.currentView ∧
    (update m (.errorMsg e)).1.apiClient = m.apiClient ∧
    (update m (.errorMsg e)).1.config = m.config ∧
    (update m (.errorMsg e)).1.username = m.username ∧
    (update m (.errorMsg e)).1.orgs = m.orgs ∧
    (update m (.errorMsg e)).1.currentOwner = m.currentOwner ∧
    (update m (.errorMsg e)).1.currentIsUser = m.currentIsUser ∧
    (update m (.errorMsg e)).1.ownerSelector = m.ownerSelector ∧
    (update m (.errorMsg e)).1.projectList = m.projectList ∧
    (update m (.errorMsg e)).1.projectDetail = m.projectDetail ∧
    (update m (.errorMsg e)).1.itemDetail = m.itemDetail ∧
    (update m (.errorMsg e)).1.itemEditor = m.itemEditor ∧
    (update m (.errorMsg e)).1.projectCreator = m.projectCreator ∧
    (update m (.errorMsg e)).1.repositorySelector = m.repositorySelector ∧
    (update m (.errorMsg e)).1.width = m.width ∧
    (update m (.errorMsg e)).1.height = m.height ∧
    (update m (.errorMsg e)).1.debugMode = m.debugMode ∧
    (update m (.errorMsg e)).1.loading = false ∧
    (update m (.errorMsg e)).2 = Cmd.none := by
  cases e <;>
    exact ⟨rfl, rfl, rfl, rfl, rfl, rfl, rfl, rfl, rfl, rfl, rfl, rfl, rfl, rfl, rfl, rfl,
      rfl, rfl, rfl⟩

/-- C8: when repositories for a draft conversion arrive and a persisted
default repository identifier exists for the project: if it matches a
fetched repository, conversion is dispatched directly and the selector is
skipped; if it matches none, the default is cleared from persisted state
and selection proceeds normally (auto-selection with exactly one
repository, the selector screen with more than one). -/
theorem repositories_loaded_default_memorization (m : Model) (p : Project) (it : Item)
    (repos : List Repository) (cfg : Config) (rid : String)
    (hcfg : m.config = some cfg) (hget : getDefaultRepository cfg p.id = some rid) :
    (∀ repo, repos.find? (fun r => r.id == rid) = some repo →
      update m (.repositoriesLoaded p it repos) =
        ({ m with
            loading := true,
            message := "Converting to issue in " ++ repo.name ++ " (default)..." },
          Cmd.convertDraft m.apiClient p it repo false)) ∧
    (repos.find? (fun r => r.id == rid) = none →
      ((update m (.repositoriesLoaded p it repos)).1.config =
          some (clearDefaultRepository cfg p.id) ∧
       (∀ r, repos = [r] →
          update m (.repositoriesLoaded p it repos) =
            ({ m with
                config := some (clearDefaultRepository cfg p.id), loading := true,
                message := "Converting to issue in " ++ r.name ++ "..." },
              Cmd.convertDraft m.apiClient p it r false)) ∧
       (1 < repos.length →
          (update m (.repositoriesLoaded p it repos)).1.currentView
            = View.repositorySelector ∧
          (update m (.repositoriesLoaded p it repos)).1.repositorySelector.repos = repos ∧
          (update m (.repositoriesLoaded p it repos)).2 = Cmd.selectorInit))) := by
  constructor
  · intro repo hfind
    simp [update, hcfg, hget, hfind]
  · intro hfind
    refine ⟨?_, ?_, ?_⟩
    · rcases repos with _ | ⟨r0, _ | ⟨r1, rest⟩⟩ <;>
        simp only [update, hcfg, hget, hfind, repositoriesLoadedRest]
    · intro r hrep
      subst hrep
      simp only [update, hcfg, hget, hfind, repositoriesLoadedRest]
    · intro hlen
      rcases repos with _ | ⟨r0, _ | ⟨r1, rest⟩⟩
      · simp at hlen
      · simp at hlen
      · simp only [update, hcfg, hget, hfind, repositoriesLoadedRest,
          repositorySelectorSetSize, NewRepositorySelectorModel]
        simp

/-! ## Concrete state-machine fixtures for the C8 witness -/

/-- A repository whose identifier matches the persisted default below. -/
def repoA : Repository := ⟨"R1", "alpha"⟩

/-- A second repository. -/
def repoB : Repository := ⟨"R2", "beta"⟩

/-- The project whose conversion flow the witness exercises. -/
def projP : Project := ⟨"P1", "Main"⟩

/-- The draft item being converted. -/
def itemI : Item := ⟨"I1"⟩

/-- A state whose persisted config maps project "P1" to repository "R1". -/
def modelWithDefault : Model :=
  { currentView := .itemDetail, apiClient := 7, config := some (Config.mk [("P1", "R1")]),
    username := "dev", orgs := [], currentOwner := "dev", currentIsUser := true,
    ownerSelector := 0, projectList := 0, projectDetail := 0, itemDetail := 0,
    itemEditor := ⟨projP, 0⟩, projectCreator := 0,
    repositorySelector := NewRepositorySelectorModel [] projP itemI,
    width := 80, height := 24, err := none, loading := false, message := "",
    debugMode := false }

/-- The same state with a stale persisted default ("R9" matches no
fetched repository). -/
def modelWithStaleDefault : Model :=
  { modelWithDefault with config := some (Config.mk [("P1", "R9")]) }

/-- Witness for C8: with a matching default the conversion is dispatched
directly; with a stale default the default is cleared and, depending on
how many repositories were fetched, the selector is shown or the sole
repository is auto-selected. -/
theorem repositories_loaded_default_memorization_witness :
    modelWithDefault.config = some (Config.mk [("P1", "R1")]) ∧
    getDefaultRepository (Config.mk [("P1", "R1")]) projP.id = some "R1" ∧
    update modelWithDefault (.repositoriesLoaded projP itemI [repoA, repoB]) =
      ({ modelWithDefault with
          loading := true,
          message := "Converting to issue in " ++ repoA.name ++ " (default)..." },
        Cmd.convertDraft modelWithDefault.apiClient projP itemI repoA false) ∧
    (update modelWithStaleDefault (.repositoriesLoaded projP itemI [repoA, repoB])).1.config
      = some (clearDefaultRepository (Config.mk [("P1", "R9")]) projP.id) ∧
    (update modelWithStaleDefault
        (.repositoriesLoaded projP itemI [repoA, repoB])).1.currentView
      = View.repositorySelector ∧
    (update modelWithStaleDefault (.repositoriesLoaded projP itemI [repoA, repoB])).2
      = Cmd.selectorInit ∧
    update modelWithStaleDefault (.repositoriesLoaded projP itemI [repoA]) =
      ({ modelWithStaleDefault with
          config := some (clearDefaultRepository (Config.mk [("P1", "R9")]) projP.id),
          loading := true,
          message := "Converting to issue in " ++ repoA.name ++ "..." },
        Cmd.convertDraft modelWithStaleDefault.apiClient projP itemI repoA false) :=
  ⟨rfl, rfl,
   (repositories_loaded_default_memorization modelWithDefault projP itemI [repoA, repoB]
     (Config.mk [("P1", "R1")]) "R1" rfl rfl).1 repoA rfl,
   ((repositories_loaded_default_memorization modelWithStaleDefault projP itemI
     [repoA, repoB] (Config.mk [("P1", "R9")]) "R9" rfl rfl).2 rfl).1,
   (((repositories_loaded_default_memorization modelWithStaleDefault projP itemI
     [repoA, repoB] (Config.mk [("P1", "R9")]) "R9" rfl rfl).2 rfl).2.2 (by decide)).1,
   (((repositories_loaded_default_memorization modelWithStaleDefault projP itemI
     [repoA, repoB] (Config.mk [("P1", "R9")]) "R9" rfl rfl).2 rfl).2.2 (by decide)).2.2,
   ((repositories_loaded_default_memorization modelWithStaleDefault projP itemI
     [repoA] (Config.mk [("P1", "R9")]) "R9" rfl rfl).2 rfl).2.1 repoA rfl⟩
